import Mathlib

/-!
Verification development for the wedding-audio-repair order backend
(`src/app.py`). The order data model, the lifecycle operations
(`create_order`, `upload_file`, `payment_success`, `get_order`,
`list_orders`) and the helper functions (`allowed_file`,
`generate_order_id`, `save_order`, `load_order`) are embedded as pure
Lean functions. The on-disk JSON store (one file per order id,
overwritten in place) is modelled as an association list keyed by
order id; nondeterministic inputs of the Python code (uuid4 draws,
`datetime.now()`, werkzeug's `secure_filename`) are passed in as
explicit arguments.
-/

namespace WAR

/-- A JSON scalar value, enough for the fields an order record holds. -/
inductive JVal where
  | str (s : String)
  | num (n : Int)
  | bool (b : Bool)
deriving Repr, DecidableEq, Inhabited

/-- `MAX_FILE_SIZE = 100 * 1024 * 1024` (app.py line 20). -/
def MAX_FILE_SIZE : Nat := 100 * 1024 * 1024

/-- `ALLOWED_EXTENSIONS` (app.py line 21). -/
def ALLOWED_EXTENSIONS : List String :=
  ["mp3", "wav", "mp4", "m4a", "aac", "flac", "ogg", "mov", "avi", "aiff", "wma", "webm", "mkv"]

/-- Python `str.lower()` on ASCII text: lowercase each character. -/
def strLower (s : String) : String :=
  String.mk (s.data.map Char.toLower)

/-- Python `filename.rsplit('.', 1)[1]`: the text after the last dot
(the characters following the final `'.'`). Only used under a guard
that the filename contains a dot. -/
def extAfterLastDot (filename : String) : String :=
  String.mk ((filename.data.reverse.takeWhile (fun c => c != '.')).reverse)

/-- `allowed_file` (app.py lines 31-33):
`'.' in filename and filename.rsplit('.', 1)[1].lower() in ALLOWED_EXTENSIONS`. -/
def allowed_file (filename : String) : Bool :=
  filename.data.contains '.' &&
    ALLOWED_EXTENSIONS.contains (strLower (extAfterLastDot filename))

/-- `generate_order_id` (app.py lines 35-36):
`f"WAR-{str(uuid.uuid4())[:8].upper()}"`. The uuid4 draw is passed in as
the string `uuidStr`; Python slicing and `str.upper` act per character. -/
def generate_order_id (uuidStr : String) : String :=
  "WAR-" ++ String.mk ((uuidStr.data.take 8).map Char.toUpper)

/-- A persisted order record (the JSON document written by `save_order`).
Fields that the code only sets in some states are `Option`s: `none`
means the key is absent from the JSON document. -/
structure Order where
  order_id : String
  customer_email : String
  customer_name : String
  service_type : String
  price : Int
  rush_delivery : Bool
  status : String
  created_at : String
  file_uploaded : Bool
  payment_completed : Bool
  file_path : Option String
  original_filename : Option String
  file_size : Option Nat
  uploaded_at : Option String
  payment_completed_at : Option String
  payment_intent_id : Option String
deriving Repr, DecidableEq, Inhabited

/-- The order store: one JSON document per order id, overwritten in
place (`orders/{order_id}.json`). Modelled as an association list. -/
abbrev Store := List (String × Order)

/-- `save_order` (app.py lines 38-43): writes the full snapshot under
the order's id, replacing any prior snapshot with the same id. -/
def save_order (s : Store) (o : Order) : Store :=
  (o.order_id, o) :: List.filter (fun p => p.1 != o.order_id) s

/-- `load_order` (app.py lines 45-51): returns the current snapshot for
the id, or `none` when no such file exists. -/
def load_order (s : Store) (order_id : String) : Option Order :=
  (List.find? (fun p => p.1 == order_id) s).map (fun p => p.2)

/-- The error taxonomy of the endpoints; each constructor corresponds
to one `jsonify({"error": ...}), code` site in app.py. -/
inductive AppError where
  | validation (field : String)  -- "Missing required field: <field>", 400
  | noFileProvided               -- "No file provided", 400
  | noFileSelected               -- "No file selected", 400
  | invalidType                  -- "Invalid file type. ...", 400
  | tooLarge                     -- "File size exceeds 100MB limit", 400
  | notFound                     -- "Order not found", 404
deriving Repr, DecidableEq

deriving instance DecidableEq for Except

/-- The JSON body of `POST /api/create-order`; `none` means the key is
absent from the request. -/
structure CreateReq where
  customer_email : Option String
  customer_name : Option String
  service_type : Option String
  price : Option Int
  rush_delivery : Option Bool
deriving Repr, DecidableEq

/-- The body of `create_order` (app.py lines 126-161): checks the four
required fields in order, then builds the new order record. The uuid4
draw behind `generate_order_id` and `datetime.now()` are the explicit
arguments `uuidStr` and `now`. -/
def create_order (data : CreateReq) (uuidStr now : String) : Except AppError Order :=
  match data.customer_email with
  | none => .error (.validation "customer_email")
  | some customer_email =>
  match data.customer_name with
  | none => .error (.validation "customer_name")
  | some customer_name =>
  match data.service_type with
  | none => .error (.validation "service_type")
  | some service_type =>
  match data.price with
  | none => .error (.validation "price")
  | some price =>
    .ok { order_id := generate_order_id uuidStr
          customer_email := customer_email
          customer_name := customer_name
          service_type := service_type
          price := price
          rush_delivery := data.rush_delivery.getD false
          status := "pending_payment"
          created_at := now
          file_uploaded := false
          payment_completed := false
          file_path := none
          original_filename := none
          file_size := none
          uploaded_at := none
          payment_completed_at := none
          payment_intent_id := none }

/-- `POST /api/create-order` at the store level: on success the new
record is persisted via `save_order`; on a validation error nothing is
written. -/
def create_order_ep (s : Store) (data : CreateReq) (uuidStr now : String) :
    Store × Except AppError String :=
  match create_order data uuidStr now with
  | .error e => (s, .error e)
  | .ok o => (save_order s o, .ok o.order_id)

/-- One part of a multipart upload: the client-supplied filename and
the byte count measured by `file.seek(0, SEEK_END); file.tell()`. -/
structure FilePart where
  filename : String
  size : Nat
deriving Repr, DecidableEq

/-- The record update applied by `upload_file` (app.py lines 259-266)
after all checks pass. `secured` is werkzeug's `secure_filename` output
for the client filename, `suffix` the `uuid.uuid4().hex[:8]` draw and
`now` the `datetime.now().isoformat()` value. -/
def mark_file_uploaded (o : Order) (part : FilePart) (secured suffix now : String) : Order :=
  { o with
    file_uploaded := true
    file_path := some ("uploads/" ++ o.order_id ++ "_" ++ suffix ++ "."
                        ++ strLower (extAfterLastDot secured))
    original_filename := some secured
    file_size := some part.size
    uploaded_at := some now
    status := "file_uploaded" }

/-- The per-file checks and record update of `upload_file`
(app.py lines 228-267), after the order has been loaded. The checks run
in source order: empty filename, extension, size. -/
def upload_file_checks (o : Order) (part : FilePart) (secured suffix now : String) :
    Except AppError Order :=
  if part.filename = "" then .error .noFileSelected
  else if ¬ allowed_file part.filename then .error .invalidType
  else if part.size > MAX_FILE_SIZE then .error .tooLarge
  else .ok (mark_file_uploaded o part secured suffix now)

/-- `POST /api/upload-file/<order_id>` (`upload_file`, app.py lines
219-281) at the level of the order store and the set of stored upload
files. The request's file part is `none` when `'file' not in
request.files`. On any error neither the store nor the file set
changes. -/
def upload_file_ep (s : Store) (files : List String) (order_id : String)
    (req : Option FilePart) (secured suffix now : String) :
    (Store × List String) × Except AppError (String × Nat) :=
  match load_order s order_id with
  | none => ((s, files), .error .notFound)
  | some o =>
    match req with
    | none => ((s, files), .error .noFileProvided)
    | some part =>
      match upload_file_checks o part secured suffix now with
      | .error e => ((s, files), .error e)
      | .ok o' =>
        let unique_filename := order_id ++ "_" ++ suffix ++ "."
                                ++ strLower (extAfterLastDot secured)
        ((save_order s o', unique_filename :: files), .ok (secured, part.size))

/-- `POST /api/upload` (`upload_file_direct`, app.py lines 167-217):
the unbound upload. Same checks, no order record touched; `file_id` is
the `str(uuid.uuid4())` draw. -/
def upload_file_direct_ep (files : List String) (req : Option FilePart)
    (file_id secured : String) :
    List String × Except AppError (String × Nat) :=
  match req with
  | none => (files, .error .noFileProvided)
  | some part =>
    if part.filename = "" then (files, .error .noFileSelected)
    else if ¬ allowed_file part.filename then (files, .error .invalidType)
    else if part.size > MAX_FILE_SIZE then (files, .error .tooLarge)
    else
      let unique_filename := file_id ++ "." ++ strLower (extAfterLastDot secured)
      (unique_filename :: files, .ok (secured, part.size))

/-- The record update applied by `payment_success` (app.py lines
312-319): set the paid flags, overwrite the timestamp, and store the
payment intent id when the request body supplies one. -/
def mark_paid (o : Order) (payment_intent_id : Option String) (now : String) : Order :=
  let o' := { o with
              payment_completed := true
              status := "paid"
              payment_completed_at := some now }
  match payment_intent_id with
  | none => o'
  | some pid => { o' with payment_intent_id := some pid }

/-- `POST /api/payment-success/<order_id>` (`payment_success`, app.py
lines 302-333) at the store level. -/
def payment_success_ep (s : Store) (order_id : String)
    (payment_intent_id : Option String) (now : String) :
    Store × Except AppError String :=
  match load_order s order_id with
  | none => (s, .error .notFound)
  | some o => (save_order s (mark_paid o payment_intent_id now), .ok order_id)

/-- The order record as the JSON object `save_order` writes: the ten
always-present keys in insertion order, then each optional key when
set. -/
def orderJson (o : Order) : List (String × JVal) :=
  [("order_id", .str o.order_id),
   ("customer_email", .str o.customer_email),
   ("customer_name", .str o.customer_name),
   ("service_type", .str o.service_type),
   ("price", .num o.price),
   ("rush_delivery", .bool o.rush_delivery),
   ("status", .str o.status),
   ("created_at", .str o.created_at),
   ("file_uploaded", .bool o.file_uploaded),
   ("payment_completed", .bool o.payment_completed)]
  ++ (o.file_path.map (fun v => ("file_path", JVal.str v))).toList
  ++ (o.original_filename.map (fun v => ("original_filename", JVal.str v))).toList
  ++ (o.file_size.map (fun v => ("file_size", JVal.num (v : Int)))).toList
  ++ (o.uploaded_at.map (fun v => ("uploaded_at", JVal.str v))).toList
  ++ (o.payment_completed_at.map (fun v => ("payment_completed_at", JVal.str v))).toList
  ++ (o.payment_intent_id.map (fun v => ("payment_intent_id", JVal.str v))).toList

/-- The response body of `get_order` (app.py lines 291-296): a copy of
the record with the `file_path` key deleted. -/
def get_order_response (o : Order) : List (String × JVal) :=
  List.filter (fun kv => kv.1 != "file_path") (orderJson o)

/-- `GET /api/order/<order_id>` (`get_order`, app.py lines 283-300). -/
def get_order_ep (s : Store) (order_id : String) :
    Except AppError (List (String × JVal)) :=
  match load_order s order_id with
  | none => .error .notFound
  | some o => .ok (get_order_response o)

/-- One summary of `list_orders` (app.py lines 386-393): the `safe_data`
dict built for each order. -/
def order_summary (o : Order) : List (String × JVal) :=
  [("order_id", .str o.order_id),
   ("customer_email", .str o.customer_email),
   ("status", .str o.status),
   ("created_at", .str o.created_at),
   ("file_uploaded", .bool o.file_uploaded),
   ("payment_completed", .bool o.payment_completed)]

/-- `GET /api/orders` (`list_orders`, app.py lines 375-400): one
summary per stored record. -/
def list_orders_ep (s : Store) : List (List (String × JVal)) :=
  List.map (fun p => order_summary p.2) s

/-- One mutating request against a single order record: the checks-passed
or checks-failed outcome of `upload_file`, or a `payment_success`. A
failed upload leaves the record unchanged (nothing is saved). -/
inductive Op where
  | upload (part : FilePart) (secured suffix now : String)
  | pay (payment_intent_id : Option String) (now : String)

/-- Apply one operation to a persisted order record. -/
def applyOp (o : Order) : Op → Order
  | .upload part secured suffix now =>
    match upload_file_checks o part secured suffix now with
    | .ok o' => o'
    | .error _ => o
  | .pay pid now => mark_paid o pid now

/-- Apply a sequence of operations in order. -/
def applyOps (o : Order) : List Op → Order
  | [] => o
  | op :: ops => applyOps (applyOp o op) ops

/-! ### Helper lemmas -/

theorem load_order_save_order (s : Store) (o : Order) :
    load_order (save_order s o) o.order_id = some o := by
  simp [load_order, save_order]

theorem mark_paid_order_id (o : Order) (pid : Option String) (now : String) :
    (mark_paid o pid now).order_id = o.order_id := by
  cases pid <;> rfl

theorem create_order_ok_fields (data : CreateReq) (u now : String) (o : Order)
    (h : create_order data u now = .ok o) :
    o.order_id = generate_order_id u ∧ o.status = "pending_payment" ∧
    o.created_at = now ∧ o.file_uploaded = false ∧ o.payment_completed = false ∧
    o.file_path = none ∧ o.original_filename = none ∧ o.file_size = none ∧
    o.uploaded_at = none := by
  rcases data with ⟨e, n, st, p, r⟩
  cases e <;> cases n <;> cases st <;> cases p <;> simp_all [create_order]
  subst h
  simp

theorem upload_file_checks_ok (o : Order) (part : FilePart)
    (secured suffix now : String) (o' : Order)
    (h : upload_file_checks o part secured suffix now = .ok o') :
    o' = mark_file_uploaded o part secured suffix now := by
  unfold upload_file_checks at h
  split at h
  · exact absurd h (by simp)
  · split at h
    · exact absurd h (by simp)
    · split at h
      · exact absurd h (by simp)
      · exact (Except.ok.injEq _ _ ▸ h).symm

theorem applyOp_status (o : Order) (op : Op) :
    (applyOp o op).status = o.status ∨ (applyOp o op).status = "file_uploaded" ∨
    (applyOp o op).status = "paid" := by
  cases op with
  | pay pid now => right; right; cases pid <;> rfl
  | upload part secured suffix now =>
    cases hc : upload_file_checks o part secured suffix now with
    | ok o' =>
      right; left
      have := upload_file_checks_ok o part secured suffix now o' hc
      simp [applyOp, hc, this, mark_file_uploaded]
    | error e => left; simp [applyOp, hc]

theorem applyOp_payment_mono (o : Order) (op : Op)
    (h : o.payment_completed = true) : (applyOp o op).payment_completed = true := by
  cases op with
  | pay pid now => cases pid <;> simp [applyOp, mark_paid]
  | upload part secured suffix now =>
    cases hc : upload_file_checks o part secured suffix now with
    | ok o' =>
      have := upload_file_checks_ok o part secured suffix now o' hc
      simp [applyOp, hc, this, mark_file_uploaded, h]
    | error e => simp [applyOp, hc, h]

/-- The invariant of C9: file metadata keys are absent while
`file_uploaded` is still false. -/
def fileMetaOnlyIfUploaded (o : Order) : Prop :=
  o.file_uploaded = false →
    o.file_path = none ∧ o.original_filename = none ∧
    o.file_size = none ∧ o.uploaded_at = none

theorem applyOp_preserves_meta_inv (o : Order) (op : Op)
    (h : fileMetaOnlyIfUploaded o) : fileMetaOnlyIfUploaded (applyOp o op) := by
  cases op with
  | pay pid now =>
    intro hf
    cases pid <;> simp_all [applyOp, mark_paid, fileMetaOnlyIfUploaded]
  | upload part secured suffix now =>
    cases hc : upload_file_checks o part secured suffix now with
    | ok o' =>
      have := upload_file_checks_ok o part secured suffix now o' hc
      intro hf
      simp [applyOp, hc, this, mark_file_uploaded] at hf
    | error e =>
      intro hf
      have hf' : o.file_uploaded = false := by simpa [applyOp, hc] using hf
      simpa [applyOp, hc] using h hf'

theorem applyOps_preserves_meta_inv (o : Order) (ops : List Op)
    (h : fileMetaOnlyIfUploaded o) : fileMetaOnlyIfUploaded (applyOps o ops) := by
  induction ops generalizing o with
  | nil => exact h
  | cons op ops ih => exact ih _ (applyOp_preserves_meta_inv _ _ h)

/-! ### Shared concrete sample data -/

/-- A complete creation request, as in the spec's worked example. -/
def sampleReq : CreateReq :=
  { customer_email := some "a@b.com", customer_name := some "A",
    service_type := some "restore", price := some 50, rush_delivery := none }

/-- A uuid4 draw used for sample orders. -/
def sampleUuid : String := "abcd1234-1111-4111-8111-111111111111"

/-- The order `create_order` builds from `sampleReq` with draw
`sampleUuid` at time "T0". -/
def sampleOrder : Order :=
  { order_id := "WAR-ABCD1234", customer_email := "a@b.com",
    customer_name := "A", service_type := "restore", price := 50,
    rush_delivery := false, status := "pending_payment", created_at := "T0",
    file_uploaded := false, payment_completed := false,
    file_path := none, original_filename := none, file_size := none,
    uploaded_at := none, payment_completed_at := none, payment_intent_id := none }

/-! ### Claim theorems -/

/-- C2: for every existing order, `payment_success` persists status
"paid" and `payment_completed = true`; a second `payment_success` on
the same order keeps both (idempotent in effect) while overwriting
`payment_completed_at` with the new timestamp. -/
theorem payment_success_paid_and_idempotent_in_effect
    (s : Store) (oid : String) (o : Order) (pid pid2 : Option String) (t t2 : String)
    (h : load_order s oid = some o) (hid : o.order_id = oid) :
    payment_success_ep s oid pid t = (save_order s (mark_paid o pid t), .ok oid) ∧
    load_order (save_order s (mark_paid o pid t)) oid = some (mark_paid o pid t) ∧
    (mark_paid o pid t).status = "paid" ∧
    (mark_paid o pid t).payment_completed = true ∧
    payment_success_ep (save_order s (mark_paid o pid t)) oid pid2 t2 =
      (save_order (save_order s (mark_paid o pid t))
        (mark_paid (mark_paid o pid t) pid2 t2), .ok oid) ∧
    (mark_paid (mark_paid o pid t) pid2 t2).status = "paid" ∧
    (mark_paid (mark_paid o pid t) pid2 t2).payment_completed = true ∧
    (mark_paid (mark_paid o pid t) pid2 t2).payment_completed_at = some t2 := by
  have hload2 : load_order (save_order s (mark_paid o pid t)) oid =
      some (mark_paid o pid t) := by
    have := load_order_save_order s (mark_paid o pid t)
    rwa [mark_paid_order_id, hid] at this
  refine ⟨by simp [payment_success_ep, h], hload2, ?_, ?_,
          by simp [payment_success_ep, hload2], ?_, ?_, ?_⟩ <;>
    cases pid <;> cases pid2 <;> simp [mark_paid]

/-- Witness for C2 at a concrete store and order. -/
theorem payment_success_paid_and_idempotent_in_effect_witness :
    (load_order [("WAR-ABCD1234", sampleOrder)] "WAR-ABCD1234" = some sampleOrder ∧
      sampleOrder.order_id = "WAR-ABCD1234") ∧
    (payment_success_ep [("WAR-ABCD1234", sampleOrder)] "WAR-ABCD1234" none "T1" =
      (save_order [("WAR-ABCD1234", sampleOrder)] (mark_paid sampleOrder none "T1"),
       .ok "WAR-ABCD1234") ∧
     load_order (save_order [("WAR-ABCD1234", sampleOrder)] (mark_paid sampleOrder none "T1"))
        "WAR-ABCD1234" = some (mark_paid sampleOrder none "T1") ∧
     (mark_paid sampleOrder none "T1").status = "paid" ∧
     (mark_paid sampleOrder none "T1").payment_completed = true ∧
     payment_success_ep
        (save_order [("WAR-ABCD1234", sampleOrder)] (mark_paid sampleOrder none "T1"))
        "WAR-ABCD1234" (some "pi_1") "T2" =
      (save_order (save_order [("WAR-ABCD1234", sampleOrder)] (mark_paid sampleOrder none "T1"))
        (mark_paid (mark_paid sampleOrder none "T1") (some "pi_1") "T2"), .ok "WAR-ABCD1234") ∧
     (mark_paid (mark_paid sampleOrder none "T1") (some "pi_1") "T2").status = "paid" ∧
     (mark_paid (mark_paid sampleOrder none "T1") (some "pi_1") "T2").payment_completed = true ∧
     (mark_paid (mark_paid sampleOrder none "T1") (some "pi_1") "T2").payment_completed_at =
       some "T2") :=
  ⟨⟨by decide, by decide⟩,
   payment_success_paid_and_idempotent_in_effect [("WAR-ABCD1234", sampleOrder)]
     "WAR-ABCD1234" sampleOrder none (some "pi_1") "T1" "T2" (by decide) (by decide)⟩

/-- C3: after a successful `create_order`, `get_order` on the returned
id succeeds and the response shows status "pending_payment",
`file_uploaded = false` and `payment_completed = false`. -/
theorem create_then_get_order (s : Store) (data : CreateReq) (u now : String) (o : Order)
    (h : create_order data u now = .ok o) :
    create_order_ep s data u now = (save_order s o, .ok o.order_id) ∧
    get_order_ep (save_order s o) o.order_id = .ok (get_order_response o) ∧
    ("status", JVal.str "pending_payment") ∈ get_order_response o ∧
    ("file_uploaded", JVal.bool false) ∈ get_order_response o ∧
    ("payment_completed", JVal.bool false) ∈ get_order_response o := by
  obtain ⟨hid, hst, hcr, hfu, hpc, hfp, hofn, hfs, hua⟩ :=
    create_order_ok_fields data u now o h
  refine ⟨by simp [create_order_ep, h],
          by simp [get_order_ep, load_order_save_order], ?_, ?_, ?_⟩ <;>
    simp [get_order_response, orderJson, List.mem_filter, hst, hfu, hpc]

/-- Witness for C3 at the sample creation request. -/
theorem create_then_get_order_witness :
    (create_order sampleReq sampleUuid "T0" = .ok sampleOrder) ∧
    (create_order_ep [] sampleReq sampleUuid "T0" =
        (save_order [] sampleOrder, .ok sampleOrder.order_id) ∧
     get_order_ep (save_order [] sampleOrder) sampleOrder.order_id =
        .ok (get_order_response sampleOrder) ∧
     ("status", JVal.str "pending_payment") ∈ get_order_response sampleOrder ∧
     ("file_uploaded", JVal.bool false) ∈ get_order_response sampleOrder ∧
     ("payment_completed", JVal.bool false) ∈ get_order_response sampleOrder) :=
  ⟨by decide, create_then_get_order [] sampleReq sampleUuid "T0" sampleOrder (by decide)⟩

set_option maxHeartbeats 1000000 in
/-- C4: the `get_order` response never carries the `file_path` key, and
every `list_orders` summary carries exactly the six safe keys — never
`price`, never `file_path`. -/
theorem sanitized_views_hide_internal_fields (s : Store) (o : Order) :
    ((get_order_response o).map Prod.fst).contains "file_path" = false ∧
    (order_summary o).map Prod.fst =
      ["order_id", "customer_email", "status", "created_at",
       "file_uploaded", "payment_completed"] ∧
    ∀ r ∈ list_orders_ep s, r.map Prod.fst =
      ["order_id", "customer_email", "status", "created_at",
       "file_uploaded", "payment_completed"] := by
  refine ⟨?_, rfl, ?_⟩
  · obtain ⟨_, _, _, _, _, _, _, _, _, _, fp, ofn, fs, ua, pca, pii⟩ := o
    cases fp <;> cases ofn <;> cases fs <;> cases ua <;> cases pca <;> cases pii <;> rfl
  · intro r hr
    simp only [list_orders_ep, List.mem_map] at hr
    obtain ⟨p, _, rfl⟩ := hr
    rfl

/-- Witness for C4 at a concrete order with all optional fields set. -/
theorem sanitized_views_hide_internal_fields_witness :
    ((get_order_response (mark_file_uploaded (mark_paid sampleOrder (some "pi_1") "T1")
        ⟨"song.mp3", 10⟩ "song.mp3" "deadbeef" "T2")).map Prod.fst).contains
      "file_path" = false ∧
    (order_summary (mark_file_uploaded (mark_paid sampleOrder (some "pi_1") "T1")
        ⟨"song.mp3", 10⟩ "song.mp3" "deadbeef" "T2")).map Prod.fst =
      ["order_id", "customer_email", "status", "created_at",
       "file_uploaded", "payment_completed"] ∧
    ∀ r ∈ list_orders_ep [("WAR-ABCD1234", sampleOrder)], r.map Prod.fst =
      ["order_id", "customer_email", "status", "created_at",
       "file_uploaded", "payment_completed"] :=
  sanitized_views_hide_internal_fields [("WAR-ABCD1234", sampleOrder)]
    (mark_file_uploaded (mark_paid sampleOrder (some "pi_1") "T1")
      ⟨"song.mp3", 10⟩ "song.mp3" "deadbeef" "T2")

/-- C10: `payment_success` on an existing order persists exactly the
`mark_paid` update, which changes only `payment_completed`, `status`,
`payment_completed_at` and — when the request supplies one —
`payment_intent_id`; every other field is unchanged. -/
theorem payment_success_frame (s : Store) (oid : String) (o : Order)
    (pid : Option String) (t : String) (h : load_order s oid = some o) :
    payment_success_ep s oid pid t = (save_order s (mark_paid o pid t), .ok oid) ∧
    (mark_paid o pid t).order_id = o.order_id ∧
    (mark_paid o pid t).customer_email = o.customer_email ∧
    (mark_paid o pid t).customer_name = o.customer_name ∧
    (mark_paid o pid t).service_type = o.service_type ∧
    (mark_paid o pid t).price = o.price ∧
    (mark_paid o pid t).rush_delivery = o.rush_delivery ∧
    (mark_paid o pid t).created_at = o.created_at ∧
    (mark_paid o pid t).file_uploaded = o.file_uploaded ∧
    (mark_paid o pid t).file_path = o.file_path ∧
    (mark_paid o pid t).original_filename = o.original_filename ∧
    (mark_paid o pid t).file_size = o.file_size ∧
    (mark_paid o pid t).uploaded_at = o.uploaded_at ∧
    (pid = none → (mark_paid o pid t).payment_intent_id = o.payment_intent_id) ∧
    (∀ p, pid = some p → (mark_paid o pid t).payment_intent_id = some p) := by
  refine ⟨by simp [payment_success_ep, h], ?_⟩
  cases pid <;> simp [mark_paid]

/-- Witness for C10 at a concrete store and order. -/
theorem payment_success_frame_witness :
    payment_success_ep [("WAR-ABCD1234", sampleOrder)] "WAR-ABCD1234" none "T1" =
      (save_order [("WAR-ABCD1234", sampleOrder)] (mark_paid sampleOrder none "T1"),
       .ok "WAR-ABCD1234") ∧
    (mark_paid sampleOrder none "T1").order_id = sampleOrder.order_id ∧
    (mark_paid sampleOrder none "T1").customer_email = sampleOrder.customer_email ∧
    (mark_paid sampleOrder none "T1").customer_name = sampleOrder.customer_name ∧
    (mark_paid sampleOrder none "T1").service_type = sampleOrder.service_type ∧
    (mark_paid sampleOrder none "T1").price = sampleOrder.price ∧
    (mark_paid sampleOrder none "T1").rush_delivery = sampleOrder.rush_delivery ∧
    (mark_paid sampleOrder none "T1").created_at = sampleOrder.created_at ∧
    (mark_paid sampleOrder none "T1").file_uploaded = sampleOrder.file_uploaded ∧
    (mark_paid sampleOrder none "T1").file_path = sampleOrder.file_path ∧
    (mark_paid sampleOrder none "T1").original_filename = sampleOrder.original_filename ∧
    (mark_paid sampleOrder none "T1").file_size = sampleOrder.file_size ∧
    (mark_paid sampleOrder none "T1").uploaded_at = sampleOrder.uploaded_at ∧
    ((none : Option String) = none →
      (mark_paid sampleOrder none "T1").payment_intent_id = sampleOrder.payment_intent_id) ∧
    (∀ p, (none : Option String) = some p →
      (mark_paid sampleOrder none "T1").payment_intent_id = some p) :=
  payment_success_frame [("WAR-ABCD1234", sampleOrder)] "WAR-ABCD1234" sampleOrder
    none "T1" (by decide)

/-- C5: `create_order` returns a 400 validation error when any of the
four required fields is absent, and then nothing is persisted; with all
four present it persists a new order and returns its id. -/
theorem create_order_requires_fields (s : Store) (data : CreateReq) (u now : String) :
    ((data.customer_email = none ∨ data.customer_name = none ∨
      data.service_type = none ∨ data.price = none) →
      ∃ f, create_order_ep s data u now = (s, .error (.validation f))) ∧
    (data.customer_email ≠ none → data.customer_name ≠ none →
     data.service_type ≠ none → data.price ≠ none →
      ∃ o, create_order data u now = .ok o ∧
        create_order_ep s data u now = (save_order s o, .ok o.order_id)) := by
  rcases data with ⟨e, n, st, p, r⟩
  cases e <;> cases n <;> cases st <;> cases p <;>
    simp [create_order_ep, create_order]

/-- Witness for C5: a request missing `customer_email` is rejected with
nothing persisted; the complete sample request is persisted. -/
theorem create_order_requires_fields_witness :
    ((∃ f, create_order_ep []
        ⟨none, some "A", some "restore", some 50, none⟩ "u" "T0" =
        ([], .error (.validation f))) ∧ True) ∧
    ((∃ o, create_order sampleReq sampleUuid "T0" = .ok o ∧
        create_order_ep [] sampleReq sampleUuid "T0" =
          (save_order [] o, .ok o.order_id)) ∧ True) :=
  ⟨⟨(create_order_requires_fields []
      ⟨none, some "A", some "restore", some 50, none⟩ "u" "T0").1 (Or.inl rfl),
    trivial⟩,
   ⟨(create_order_requires_fields [] sampleReq sampleUuid "T0").2
      (by decide) (by decide) (by decide) (by decide), trivial⟩⟩

/-- C6: a filename whose extension is not in the allowed set (or that
has no dot at all) is rejected with the invalid-type error by both the
unbound and the order-bound upload, and neither the file set nor the
order store changes. -/
theorem upload_rejects_disallowed_extension
    (s : Store) (files : List String) (oid : String) (o : Order)
    (part : FilePart) (file_id secured suffix now : String)
    (hne : part.filename ≠ "")
    (hbad : allowed_file part.filename = false)
    (ho : load_order s oid = some o) :
    upload_file_direct_ep files (some part) file_id secured =
      (files, .error .invalidType) ∧
    upload_file_ep s files oid (some part) secured suffix now =
      ((s, files), .error .invalidType) := by
  constructor
  · simp [upload_file_direct_ep, hne, hbad]
  · simp [upload_file_ep, ho, upload_file_checks, hne, hbad]

/-- Witness for C6: `virus.exe` is rejected by both endpoints. -/
theorem upload_rejects_disallowed_extension_witness :
    ((⟨"virus.exe", 10⟩ : FilePart).filename ≠ "" ∧
     allowed_file (⟨"virus.exe", 10⟩ : FilePart).filename = false ∧
     load_order [("WAR-ABCD1234", sampleOrder)] "WAR-ABCD1234" = some sampleOrder) ∧
    (upload_file_direct_ep [] (some ⟨"virus.exe", 10⟩) "fid" "virus.exe" =
      ([], .error .invalidType) ∧
     upload_file_ep [("WAR-ABCD1234", sampleOrder)] [] "WAR-ABCD1234"
        (some ⟨"virus.exe", 10⟩) "virus.exe" "deadbeef" "T2" =
      (([("WAR-ABCD1234", sampleOrder)], []), .error .invalidType)) :=
  ⟨⟨by decide, by decide, by decide⟩,
   upload_rejects_disallowed_extension [("WAR-ABCD1234", sampleOrder)] []
     "WAR-ABCD1234" sampleOrder ⟨"virus.exe", 10⟩ "fid" "virus.exe" "deadbeef" "T2"
     (by decide) (by decide) (by decide)⟩

/-- C7: a file strictly larger than 100 MiB with an allowed extension
is rejected with the too-large error by both uploads, with no state
change; a file of exactly 100 MiB is not rejected by the size check. -/
theorem upload_rejects_oversize_only_strictly
    (s : Store) (files : List String) (oid : String) (o : Order)
    (part : FilePart) (file_id secured suffix now : String)
    (hne : part.filename ≠ "")
    (hok : allowed_file part.filename = true)
    (ho : load_order s oid = some o) :
    (part.size > MAX_FILE_SIZE →
      upload_file_direct_ep files (some part) file_id secured =
        (files, .error .tooLarge) ∧
      upload_file_ep s files oid (some part) secured suffix now =
        ((s, files), .error .tooLarge)) ∧
    (part.size = MAX_FILE_SIZE →
      (upload_file_direct_ep files (some part) file_id secured).2 ≠
        .error .tooLarge ∧
      (upload_file_ep s files oid (some part) secured suffix now).2 ≠
        .error .tooLarge) := by
  constructor
  · intro hbig
    constructor
    · simp [upload_file_direct_ep, hne, hok, hbig]
    · simp [upload_file_ep, ho, upload_file_checks, hne, hok, hbig]
  · intro hexact
    constructor
    · simp [upload_file_direct_ep, hne, hok, hexact]
    · simp [upload_file_ep, ho, upload_file_checks, hne, hok, hexact]

/-- Witness for C7: a 100 MiB + 1 byte `.mp3` is rejected, a file of
exactly 100 MiB is not rejected by the size check. -/
theorem upload_rejects_oversize_only_strictly_witness :
    (((⟨"big.mp3", MAX_FILE_SIZE + 1⟩ : FilePart).size > MAX_FILE_SIZE →
      upload_file_direct_ep [] (some ⟨"big.mp3", MAX_FILE_SIZE + 1⟩) "fid" "big.mp3" =
        ([], .error .tooLarge) ∧
      upload_file_ep [("WAR-ABCD1234", sampleOrder)] [] "WAR-ABCD1234"
          (some ⟨"big.mp3", MAX_FILE_SIZE + 1⟩) "big.mp3" "deadbeef" "T2" =
        (([("WAR-ABCD1234", sampleOrder)], []), .error .tooLarge)) ∧
     ((⟨"big.mp3", MAX_FILE_SIZE + 1⟩ : FilePart).size = MAX_FILE_SIZE →
      (upload_file_direct_ep [] (some ⟨"big.mp3", MAX_FILE_SIZE + 1⟩) "fid" "big.mp3").2 ≠
        .error .tooLarge ∧
      (upload_file_ep [("WAR-ABCD1234", sampleOrder)] [] "WAR-ABCD1234"
          (some ⟨"big.mp3", MAX_FILE_SIZE + 1⟩) "big.mp3" "deadbeef" "T2").2 ≠
        .error .tooLarge)) ∧
    (((⟨"exact.mp3", MAX_FILE_SIZE⟩ : FilePart).size > MAX_FILE_SIZE →
      upload_file_direct_ep [] (some ⟨"exact.mp3", MAX_FILE_SIZE⟩) "fid" "exact.mp3" =
        ([], .error .tooLarge) ∧
      upload_file_ep [("WAR-ABCD1234", sampleOrder)] [] "WAR-ABCD1234"
          (some ⟨"exact.mp3", MAX_FILE_SIZE⟩) "exact.mp3" "deadbeef" "T2" =
        (([("WAR-ABCD1234", sampleOrder)], []), .error .tooLarge)) ∧
     ((⟨"exact.mp3", MAX_FILE_SIZE⟩ : FilePart).size = MAX_FILE_SIZE →
      (upload_file_direct_ep [] (some ⟨"exact.mp3", MAX_FILE_SIZE⟩) "fid" "exact.mp3").2 ≠
        .error .tooLarge ∧
      (upload_file_ep [("WAR-ABCD1234", sampleOrder)] [] "WAR-ABCD1234"
          (some ⟨"exact.mp3", MAX_FILE_SIZE⟩) "exact.mp3" "deadbeef" "T2").2 ≠
        .error .tooLarge)) :=
  ⟨upload_rejects_oversize_only_strictly [("WAR-ABCD1234", sampleOrder)] []
     "WAR-ABCD1234" sampleOrder ⟨"big.mp3", MAX_FILE_SIZE + 1⟩ "fid" "big.mp3"
     "deadbeef" "T2" (by decide) (by decide) (by decide),
   upload_rejects_oversize_only_strictly [("WAR-ABCD1234", sampleOrder)] []
     "WAR-ABCD1234" sampleOrder ⟨"exact.mp3", MAX_FILE_SIZE⟩ "fid" "exact.mp3"
     "deadbeef" "T2" (by decide) (by decide) (by decide)⟩

/-- A second complete creation request with a different customer. -/
def sampleReq2 : CreateReq :=
  { customer_email := some "c@d.com", customer_name := some "C",
    service_type := some "restore", price := some 75, rush_delivery := none }

/-- A uuid4 draw distinct from `sampleUuid` that shares its first eight
characters. -/
def collideUuid : String := "abcd1234-2222-4222-8222-222222222222"

/-- C1 fails as stated: on a paid order, `upload_file` resets the
persisted status from "paid" back to "file_uploaded". Concretely:
create the sample order, mark it paid (status "paid"), then upload
`song.mp3`; the persisted status afterwards is "file_uploaded". -/
theorem status_regression_counterexample :
    create_order_ep [] sampleReq sampleUuid "T0" =
      ([("WAR-ABCD1234", sampleOrder)], .ok "WAR-ABCD1234") ∧
    (load_order (payment_success_ep [("WAR-ABCD1234", sampleOrder)]
        "WAR-ABCD1234" none "T1").1 "WAR-ABCD1234").map Order.status =
      some "paid" ∧
    (load_order (upload_file_ep (payment_success_ep [("WAR-ABCD1234", sampleOrder)]
          "WAR-ABCD1234" none "T1").1 [] "WAR-ABCD1234"
          (some ⟨"song.mp3", 10⟩) "song.mp3" "deadbeef" "T2").1.1
        "WAR-ABCD1234").map Order.status = some "file_uploaded" ∧
    (load_order (upload_file_ep (payment_success_ep [("WAR-ABCD1234", sampleOrder)]
          "WAR-ABCD1234" none "T1").1 [] "WAR-ABCD1234"
          (some ⟨"song.mp3", 10⟩) "song.mp3" "deadbeef" "T2").1.1
        "WAR-ABCD1234").map Order.payment_completed = some true := by decide

/-- C1 amended: once the status has left "pending_payment" it never
returns there, and `payment_completed` never reverts to false; but the
status itself can move from "paid" back to "file_uploaded" when a file
is uploaded to a paid order. -/
theorem status_never_returns_to_pending (o : Order) (ops : List Op)
    (h : o.status ≠ "pending_payment") :
    (applyOps o ops).status ≠ "pending_payment" ∧
    (o.payment_completed = true → (applyOps o ops).payment_completed = true) := by
  induction ops generalizing o with
  | nil => exact ⟨h, fun hp => hp⟩
  | cons op ops ih =>
    have hst : (applyOp o op).status ≠ "pending_payment" := by
      rcases applyOp_status o op with h1 | h1 | h1 <;> rw [h1]
      · exact h
      · decide
      · decide
    have hrest := ih (applyOp o op) hst
    exact ⟨hrest.1, fun hp => hrest.2 (applyOp_payment_mono o op hp)⟩

/-- Witness for the amended C1 at a paid sample order. -/
theorem status_never_returns_to_pending_witness :
    (mark_paid sampleOrder none "T1").status ≠ "pending_payment" ∧
    ((applyOps (mark_paid sampleOrder none "T1")
        [Op.upload ⟨"song.mp3", 10⟩ "song.mp3" "deadbeef" "T2"]).status ≠
      "pending_payment" ∧
     ((mark_paid sampleOrder none "T1").payment_completed = true →
      (applyOps (mark_paid sampleOrder none "T1")
        [Op.upload ⟨"song.mp3", 10⟩ "song.mp3" "deadbeef" "T2"]).payment_completed =
        true)) :=
  ⟨by decide,
   status_never_returns_to_pending (mark_paid sampleOrder none "T1")
     [Op.upload ⟨"song.mp3", 10⟩ "song.mp3" "deadbeef" "T2"] (by decide)⟩

/-! #### C8: order-id format and uniqueness -/

/-- The characters that can appear in a canonical `uuid.uuid4()`
rendering (besides the dashes): lowercase hexadecimal digits. -/
def lowerHexChars : List Char :=
  ['0', '1', '2', '3', '4'] ++ ['5', '6', '7', '8', '9'] ++ ['a', 'b', 'c'] ++ ['d', 'e', 'f']

/-- Uppercase hexadecimal digits, as produced by `.upper()`. -/
def upperHexChars : List Char :=
  ['0', '1', '2', '3', '4'] ++ ['5', '6', '7', '8', '9'] ++ ['A', 'B', 'C'] ++ ['D', 'E', 'F']

/-- The required order-id shape: the literal "WAR-" followed by exactly
eight uppercase hexadecimal characters. -/
def isOrderIdFormat (s : String) : Bool :=
  s.data.take 4 == ['W', 'A', 'R', '-'] &&
  (s.data.drop 4).length == 8 &&
  (s.data.drop 4).all (fun c => upperHexChars.contains c)

theorem toUpper_mem_upperHex (c : Char) (h : c ∈ lowerHexChars) :
    c.toUpper ∈ upperHexChars := by
  have h' : c ∈ ['0', '1', '2', '3', '4'] ∨ c ∈ ['5', '6', '7', '8', '9'] ∨
      c ∈ ['a', 'b', 'c'] ∨ c ∈ ['d', 'e', 'f'] := by
    simpa [lowerHexChars, List.mem_append, or_assoc] using h
  rcases h' with h' | h' | h' | h' <;> fin_cases h' <;> decide

/-- C8 fails as stated: two distinct uuid4 draws that agree on their
first eight characters give the same order_id, and the second
`create_order` then silently overwrites the first order. -/
theorem order_id_uniqueness_counterexample :
    sampleUuid ≠ collideUuid ∧
    generate_order_id sampleUuid = generate_order_id collideUuid ∧
    (create_order_ep [] sampleReq sampleUuid "T0").2 = .ok "WAR-ABCD1234" ∧
    (create_order_ep (create_order_ep [] sampleReq sampleUuid "T0").1
        sampleReq2 collideUuid "T1").2 = .ok "WAR-ABCD1234" ∧
    (load_order (create_order_ep (create_order_ep [] sampleReq sampleUuid "T0").1
        sampleReq2 collideUuid "T1").1 "WAR-ABCD1234").map Order.customer_email =
      some "c@d.com" := by decide

/-- C8 amended: every generated order_id matches `WAR-` plus eight
uppercase hex characters (given a uuid4-shaped draw), but uniqueness is
not enforced: any two draws sharing their first eight characters
produce the same order_id. -/
theorem generate_order_id_format_and_collision (u : String)
    (h8 : 8 ≤ u.data.length)
    (hhex : ∀ c ∈ u.data.take 8, c ∈ lowerHexChars) :
    isOrderIdFormat (generate_order_id u) = true ∧
    ∀ u2 : String, u2.data.take 8 = u.data.take 8 →
      generate_order_id u2 = generate_order_id u := by
  constructor
  · have hdata : (generate_order_id u).data =
        'W' :: 'A' :: 'R' :: '-' :: (u.data.take 8).map Char.toUpper := by
      show (("WAR-" : String) ++ String.mk ((u.data.take 8).map Char.toUpper)).data = _
      rw [String.data_append]
      rfl
    unfold isOrderIdFormat
    rw [hdata]
    have h1 : ('W' :: 'A' :: 'R' :: '-' :: (u.data.take 8).map Char.toUpper).take 4 =
        ['W', 'A', 'R', '-'] := rfl
    have h2 : ('W' :: 'A' :: 'R' :: '-' :: (u.data.take 8).map Char.toUpper).drop 4 =
        (u.data.take 8).map Char.toUpper := rfl
    rw [h1, h2]
    simp only [Bool.and_eq_true, beq_iff_eq, List.all_eq_true]
    refine ⟨⟨trivial, ?_⟩, ?_⟩
    · rw [List.length_map, List.length_take]
      exact Nat.min_eq_left h8
    · intro c hc
      rw [List.mem_map] at hc
      obtain ⟨d, hd, rfl⟩ := hc
      exact List.elem_eq_true_of_mem (toUpper_mem_upperHex d (hhex d hd))
  · intro u2 hu
    simp only [generate_order_id, hu]

/-- Witness for the amended C8 at the sample uuid draw. -/
theorem generate_order_id_format_and_collision_witness :
    (8 ≤ sampleUuid.data.length ∧
     ∀ c ∈ sampleUuid.data.take 8, c ∈ lowerHexChars) ∧
    (isOrderIdFormat (generate_order_id sampleUuid) = true ∧
     ∀ u2 : String, u2.data.take 8 = sampleUuid.data.take 8 →
       generate_order_id u2 = generate_order_id sampleUuid) :=
  ⟨⟨by decide, by decide⟩,
   generate_order_id_format_and_collision sampleUuid (by decide) (by decide)⟩

/-- C9: in every order reachable from `create_order` by upload and
payment operations, the file metadata fields are absent unless
`file_uploaded` is true. -/
theorem file_metadata_only_with_flag (data : CreateReq) (u now : String)
    (o0 : Order) (ops : List Op) (h : create_order data u now = .ok o0) :
    fileMetaOnlyIfUploaded (applyOps o0 ops) := by
  obtain ⟨-, -, -, -, -, hfp, hofn, hfs, hua⟩ := create_order_ok_fields data u now o0 h
  exact applyOps_preserves_meta_inv o0 ops (fun _ => ⟨hfp, hofn, hfs, hua⟩)

/-- Witness for C9: the invariant holds after paying and then uploading
on the sample order. -/
theorem file_metadata_only_with_flag_witness :
    create_order sampleReq sampleUuid "T0" = .ok sampleOrder ∧
    fileMetaOnlyIfUploaded (applyOps sampleOrder
      [Op.pay none "T1", Op.upload ⟨"song.mp3", 10⟩ "song.mp3" "deadbeef" "T2"]) :=
  ⟨by decide,
   file_metadata_only_with_flag sampleReq sampleUuid "T0" sampleOrder
     [Op.pay none "T1", Op.upload ⟨"song.mp3", 10⟩ "song.mp3" "deadbeef" "T2"]
     (by decide)⟩

end WAR
